import Mathlib

/-!
# Verification of the message-batching subsystem

Shallow embedding of the batching/debounce core of the repository:
`workers/batching.py` (`add_message_to_batch`, `process_and_forward_batch`),
`workers/n8n_forwarder.py` (`forward_to_n8n`, `safe_forward_to_n8n`), and the
n8n-handoff decision of `workers/jobs.py` (`process_whatsapp_message`).

External effects are made explicit:

* the Redis store is a value of type `RedisState` (a map from string keys to
  stored values), threaded through the functions, with `GET`/`SET`/`DEL`/`INCR`
  given their Redis semantics;
* the outcome of every other external call (whether a Redis round-trip raises a
  connection error, what `rq.job.Job.fetch`/`cancel`/`enqueue_in` and the HTTP
  POST do) is a parameter of the embedded function - an oracle recording, in
  program order, what each call would do - so the claims can quantify over all
  behaviours of the collaborators;
* Python exception flow is translated branch by branch: a function that may
  raise returns `Except PyExc _`, and every `try`/`except` of the source
  appears as the corresponding `match`.
-/

namespace MessageMemory

/-- A Python exception value, identified by its message. -/
structure PyExc where
  msg : String
deriving DecidableEq, Repr

/-- A value stored under a Redis key.  Redis stores byte strings and `INCR`
reinterprets them as integers; integer-valued entries are kept in a dedicated
constructor so that counter arithmetic is explicit, while `truthy`, `decode`
and `toInt?` below give such an entry exactly the behaviour of its decimal
byte-string form. -/
inductive Val where
  | str : String → Val
  | int : Int → Val
deriving DecidableEq, Repr

/-- Python truthiness of the raw bytes returned by `redis.get`: `b""` is
falsy, any other byte string - including `b"0"` - is truthy.  (`None` is
handled by `Option` at the call sites.) -/
def Val.truthy : Val → Bool
  | .str s => !s.isEmpty
  | .int _ => true

/-- `bytes.decode()` on a stored value. -/
def Val.decode : Val → String
  | .str s => s
  | .int n => toString n

/-- `int(...)` applied to a stored value: an integer entry is itself, a string
entry parses by decimal syntax, and a non-numeric string raises `ValueError`
(modelled as `none`). -/
def Val.toInt? : Val → Option Int
  | .str s => s.toInt?
  | .int n => some n

/-- The Redis key space: a map from string keys to optionally present
values. -/
def RedisState := String → Option Val

/-- The empty store (no key set). -/
def RedisState.empty : RedisState := fun _ => none

/-- `redis.get(k)`: `None` when absent. -/
def rget (s : RedisState) (k : String) : Option Val := s k

/-- `redis.set(k, v)`. -/
def rset (s : RedisState) (k : String) (v : Val) : RedisState :=
  fun k2 => if k2 = k then some v else s k2

/-- `redis.delete(k)`: deleting an absent key is a no-op. -/
def rdel (s : RedisState) (k : String) : RedisState :=
  fun k2 => if k2 = k then none else s k2

/-- `redis.incr(k)`: creates the key at 1 when absent, otherwise interprets
the current value as an integer and adds 1; raises `redis.ResponseError` on a
non-integer value. -/
def rincr (s : RedisState) (k : String) : Except PyExc (RedisState × Int) :=
  match rget s k with
  | none => .ok (rset s k (.int 1), 1)
  | some v =>
    match v.toInt? with
    | some n => .ok (rset s k (.int (n + 1)), n + 1)
    | none => .error ⟨"value is not an integer or out of range"⟩

@[simp]
theorem rget_rset_self (s : RedisState) (k : String) (v : Val) :
    rget (rset s k v) k = some v := by
  simp [rget, rset]

@[simp]
theorem rget_rset_ne (s : RedisState) (k k2 : String) (v : Val) (h : k2 ≠ k) :
    rget (rset s k v) k2 = rget s k2 := by
  simp [rget, rset, h]

@[simp]
theorem rget_rdel_self (s : RedisState) (k : String) :
    rget (rdel s k) k = none := by
  simp [rget, rdel]

@[simp]
theorem rget_rdel_ne (s : RedisState) (k k2 : String) (h : k2 ≠ k) :
    rget (rdel s k) k2 = rget s k2 := by
  simp [rget, rdel, h]

/-! ## Key layout (`workers/batching.py`, lines 12-15)

The three key families share the conversation identifier as suffix and use
pairwise prefix-free prefixes, so keys of different families never collide. -/

def BATCH_COUNT_PREFIX : String := "n8n_count:"
def BATCH_USER_ID_PREFIX : String := "n8n_user:"
def BATCH_JOB_ID_PREFIX : String := "n8n_job:"

/-- `count_key = f"{BATCH_COUNT_PREFIX}{chat_id}"`. -/
def count_key (chat_id : String) : String := BATCH_COUNT_PREFIX ++ chat_id

/-- `user_id_key = f"{BATCH_USER_ID_PREFIX}{chat_id}"`. -/
def user_id_key (chat_id : String) : String := BATCH_USER_ID_PREFIX ++ chat_id

/-- `job_id_key = f"{BATCH_JOB_ID_PREFIX}{chat_id}"`. -/
def job_id_key (chat_id : String) : String := BATCH_JOB_ID_PREFIX ++ chat_id

theorem count_key_ne_user_id_key (a b : String) : count_key a ≠ user_id_key b := by
  intro h
  have h2 : (count_key a).data.get? 4 = (user_id_key b).data.get? 4 := by rw [h]
  simp [count_key, user_id_key, BATCH_COUNT_PREFIX, BATCH_USER_ID_PREFIX,
    String.data_append] at h2

theorem count_key_ne_job_id_key (a b : String) : count_key a ≠ job_id_key b := by
  intro h
  have h2 : (count_key a).data.get? 4 = (job_id_key b).data.get? 4 := by rw [h]
  simp [count_key, job_id_key, BATCH_COUNT_PREFIX, BATCH_JOB_ID_PREFIX,
    String.data_append] at h2

theorem user_id_key_ne_job_id_key (a b : String) : user_id_key a ≠ job_id_key b := by
  intro h
  have h2 : (user_id_key a).data.get? 4 = (job_id_key b).data.get? 4 := by rw [h]
  simp [user_id_key, job_id_key, BATCH_USER_ID_PREFIX, BATCH_JOB_ID_PREFIX,
    String.data_append] at h2

theorem count_key_inj (a b : String) (h : count_key a = count_key b) : a = b := by
  have h2 : (count_key a).data = (count_key b).data := by rw [h]
  simp [count_key, BATCH_COUNT_PREFIX, String.data_append] at h2
  exact String.ext h2

/-! ## `add_message_to_batch` (`workers/batching.py`, lines 26-86) -/

/-- The status values of an RQ job (`Job.get_status()`). -/
inductive JobStatus where
  | queued | scheduled | started | deferred | finished | failed | cancelled | stopped
deriving DecidableEq, Repr

/-- Python truthiness of an `Optional[str]` argument: `None` and `""` are
falsy. -/
def optTruthy : Option String → Bool
  | none => false
  | some u => !u.isEmpty

/-- Outcomes of the external calls one `add_message_to_batch` invocation
makes, in program order.  A `some e` in an `...Exc` field means the
corresponding call raises `e` instead of completing; `fetchResult` is what
`Job.fetch(...).get_status()` does for the previously stored job id, and
`enqueueResult` is what `queue.enqueue_in(...)` does (on success: the id of
the newly scheduled job). -/
structure AddEnv where
  incrExc : Option PyExc
  setUserExc : Option PyExc
  getJobExc : Option PyExc
  fetchResult : Except PyExc JobStatus
  cancelExc : Option PyExc
  enqueueResult : Except PyExc String
  setJobExc : Option PyExc
deriving Repr

/-- Successful outcome of `add_message_to_batch`: the store afterwards, the
id of the newly scheduled flush job, and whether the inner
`except Exception: logger.warning("Could not cancel existing job")` handler
ran (a cancellation failure that was swallowed). -/
structure AddOk where
  state : RedisState
  newJobId : String
  cancelWarned : Bool

/-- `add_message_to_batch(chat_id, content, user_id, session_id)`
(`workers/batching.py`, lines 26-86; `content` and `session_id` are unused in
the source and omitted).  The outer `try`/`except` logs and re-raises, so it
is the identity on the raised exception; the inner `try`/`except` around
`Job.fetch`/`cancel` swallows.  Control flow, in source order:
increment the counter; store `user_id` if truthy; read the stored job id;
if truthy, best-effort cancel (fetch, check status in
`['queued', 'scheduled']`, cancel); schedule the new flush job; store its
id. -/
def add_message_to_batch (env : AddEnv) (chat_id : String) (user_id : Option String)
    (s : RedisState) : Except PyExc AddOk :=
  match env.incrExc with
  | some e => .error e
  | none =>
  match rincr s (count_key chat_id) with
  | .error e => .error e
  | .ok (s1, _) =>
  match (if optTruthy user_id then env.setUserExc else none) with
  | some e => .error e
  | none =>
  let s2 : RedisState :=
    match user_id with
    | some u => if u.isEmpty then s1 else rset s1 (user_id_key chat_id) (.str u)
    | none => s1
  match env.getJobExc with
  | some e => .error e
  | none =>
  let existing := rget s2 (job_id_key chat_id)
  let cancelWarned : Bool :=
    match existing with
    | some v =>
      if v.truthy then
        match env.fetchResult with
        | .error _ => true
        | .ok st =>
          if st = .queued ∨ st = .scheduled then env.cancelExc.isSome else false
      else false
    | none => false
  match env.enqueueResult with
  | .error e => .error e
  | .ok newId =>
  match env.setJobExc with
  | some e => .error e
  | none =>
    .ok { state := rset s2 (job_id_key chat_id) (.str newId)
          newJobId := newId
          cancelWarned := cancelWarned }

/-! ## `forward_to_n8n` / `safe_forward_to_n8n`
(`workers/n8n_forwarder.py`) -/

/-- The payload built by `process_and_forward_batch` (lines 122-125):
`{"user_id": user_id, "batched_message_count": message_count}`. -/
structure Payload where
  user_id : Option String
  batched_message_count : Int
deriving DecidableEq, Repr

/-- The outcome of one `httpx.post` + `response.raise_for_status()` round
trip: a 2xx response, an `httpx.HTTPError` (network failure, timeout, or a
non-2xx status raised by `raise_for_status`), or any other exception. -/
inductive HttpOutcome where
  | success
  | httpError : PyExc → HttpOutcome
  | otherError : PyExc → HttpOutcome
deriving Repr

/-- One attempt of the body of `forward_to_n8n` (lines 26-52): on 2xx it
returns `True`; both `except` clauses log and re-raise. -/
def forwardAttempt : HttpOutcome → Except PyExc Bool
  | .success => .ok true
  | .httpError e => .error e
  | .otherError e => .error e

/-- The `tenacity.RetryError` raised when the retry budget is exhausted,
wrapping the last attempt's exception. -/
def retryError (e : PyExc) : PyExc := ⟨"RetryError: " ++ e.msg⟩

/-- Modelled from the `tenacity` library: `@retry(stop=stop_after_attempt(2),
wait=..., reraise=False)` runs the wrapped body up to twice; if it returns,
that value is returned; if both attempts raise, the decorator raises
`RetryError` (because `reraise=False`), never the body's own return value. -/
def retryStopAfterTwo (attempt1 attempt2 : Except PyExc Bool) : Except PyExc Bool :=
  match attempt1 with
  | .ok b => .ok b
  | .error _ =>
    match attempt2 with
    | .ok b => .ok b
    | .error e => .error (retryError e)

/-- `forward_to_n8n(payload)` (lines 11-52): the retry-decorated HTTP POST,
parameterised by the outcomes of the (at most two) HTTP attempts. -/
def forward_to_n8n (o1 o2 : HttpOutcome) (_payload : Payload) : Except PyExc Bool :=
  retryStopAfterTwo (forwardAttempt o1) (forwardAttempt o2)

/-- Which path `safe_forward_to_n8n` took: the normal return, the
`if not success: logger.warning(...)` branch, or the
`except Exception: logger.error(...)` branch. -/
inductive SafeOutcome where
  | forwarded | warnedFalse | loggedError
deriving DecidableEq, Repr

/-- `safe_forward_to_n8n(payload)` (lines 55-77), parameterised by the
behaviour of the wrapped forward call.  The result type `Except PyExc _`
records whether the function itself raises; its `try`/`except Exception`
catches everything the forward call raises. -/
def safe_forward_to_n8n (forward : Payload → Except PyExc Bool) (payload : Payload) :
    Except PyExc SafeOutcome :=
  match forward payload with
  | .ok true => .ok .forwarded
  | .ok false => .ok .warnedFalse
  | .error _ => .ok .loggedError

/-! ## `process_and_forward_batch` (`workers/batching.py`, lines 89-141) -/

/-- Outcomes of the Redis round-trips one `process_and_forward_batch`
invocation makes, in program order, plus the behaviour of the underlying
forward call (which `safe_forward_to_n8n` wraps). -/
structure FlushEnv where
  getCountExc : Option PyExc
  getUserExc : Option PyExc
  forward : Payload → Except PyExc Bool
  delCountExc : Option PyExc
  delUserExc : Option PyExc
  delJobExc : Option PyExc

/-- Observable outcome of `process_and_forward_batch`: the store afterwards,
the payload handed to `safe_forward_to_n8n` (if the forward step was
reached), and the exception caught by the outer
`except Exception: logger.error(...)` handler (if any).  The function itself
never raises: the outer handler deliberately does not re-raise
(lines 138-141). -/
structure FlushResult where
  state : RedisState
  forwarded : Option Payload
  caught : Option PyExc

/-- The user id `process_and_forward_batch` reads for a conversation
(lines 112-114): `user_id = redis_conn.get(user_id_key)`, then
`user_id.decode() if user_id else None`. -/
def stored_user_id (s : RedisState) (chat_id : String) : Option String :=
  match rget s (user_id_key chat_id) with
  | some uv => if uv.truthy then some uv.decode else none
  | none => none

/-- The `try` block of `process_and_forward_batch` (lines 103-136): read the
count (absent or empty ⇒ log and return), parse it with `int(...)`, read the
user id, build the payload, call `safe_forward_to_n8n`, then delete the three
keys.  An error carries the store and forward attempt as they stand when the
exception is raised. -/
def flushBody (env : FlushEnv) (chat_id : String) (s : RedisState) :
    Except (PyExc × RedisState × Option Payload) (RedisState × Option Payload) :=
  let ck := count_key chat_id
  let uk := user_id_key chat_id
  let jk := job_id_key chat_id
  match env.getCountExc with
  | some e => .error (e, s, none)
  | none =>
  match rget s ck with
  | none => .ok (s, none)
  | some cv =>
  if ¬ cv.truthy then .ok (s, none)
  else
  match cv.toInt? with
  | none => .error (⟨"ValueError: invalid literal for int"⟩, s, none)
  | some message_count =>
  match env.getUserExc with
  | some e => .error (e, s, none)
  | none =>
  let payload : Payload := ⟨stored_user_id s chat_id, message_count⟩
  match safe_forward_to_n8n env.forward payload with
  | .error e => .error (e, s, some payload)
  | .ok _ =>
  match env.delCountExc with
  | some e => .error (e, s, some payload)
  | none =>
  let s1 := rdel s ck
  match env.delUserExc with
  | some e => .error (e, s1, some payload)
  | none =>
  let s2 := rdel s1 uk
  match env.delJobExc with
  | some e => .error (e, s2, some payload)
  | none => .ok (rdel s2 jk, some payload)

/-- `process_and_forward_batch(chat_id)` (lines 89-141): the `try` block
wrapped in the outer `except Exception` handler, which logs and deliberately
does **not** re-raise ("we don't want RQ to retry this job"), leaving
whatever state the body had not yet deleted in Redis. -/
def process_and_forward_batch (env : FlushEnv) (chat_id : String) (s : RedisState) :
    FlushResult :=
  match flushBody env chat_id s with
  | .ok (s2, fwd) => { state := s2, forwarded := fwd, caught := none }
  | .error (e, s2, fwd) => { state := s2, forwarded := fwd, caught := some e }

/-! ## The n8n handoff decision (`workers/jobs.py`, lines 371-377;
duplicated verbatim in the unreachable tail at lines 810-826) -/

/-- `is_pilot = subscription_status == "pilot"` (`workers/jobs.py`,
line 105): `None == "pilot"` is `False` in Python. -/
def is_pilot (subscription_status : Option String) : Bool :=
  subscription_status = some "pilot"

/-- The pipeline's decision: `if not from_me and not skip_n8n_batch and not
is_pilot:` (`workers/jobs.py`, line 372). -/
def should_add_to_batch (from_me skip_n8n_batch : Bool)
    (subscription_status : Option String) : Bool :=
  !from_me && !skip_n8n_batch && !(is_pilot subscription_status)

/-- The N8N HANDOFF step of `process_whatsapp_message` (`workers/jobs.py`,
lines 371-377): when the decision holds, call `add_message_to_batch`, with
its exceptions caught and logged (`except Exception: logger.error("N8N batch
error")`); otherwise do nothing.  Returns the store afterwards and whether
`add_message_to_batch` was invoked. -/
def n8n_handoff (env : AddEnv) (from_me skip_n8n_batch : Bool)
    (subscription_status : Option String) (chat_id : String)
    (user_id : Option String) (s : RedisState) : RedisState × Bool :=
  if should_add_to_batch from_me skip_n8n_batch subscription_status then
    match add_message_to_batch env chat_id user_id s with
    | .ok r => (r.state, true)
    | .error _ => (s, true)
  else (s, false)

/-! ## Helper environments and runs -/

/-- An `AddEnv` in which every external call succeeds: the previously stored
job (if any) is fetched in state `scheduled`, and the newly scheduled job
gets id `"new-job-id"`. -/
def okAddEnv : AddEnv :=
  { incrExc := none, setUserExc := none, getJobExc := none,
    fetchResult := .ok .scheduled, cancelExc := none,
    enqueueResult := .ok "new-job-id", setJobExc := none }

/-- A `FlushEnv` in which every Redis round-trip succeeds and the underlying
forward call behaves as `forward`. -/
def kvOkFlushEnv (forward : Payload → Except PyExc Bool) : FlushEnv :=
  { getCountExc := none, getUserExc := none, forward := forward,
    delCountExc := none, delUserExc := none, delJobExc := none }

/-- Run a sequence of `add_message_to_batch` calls for one conversation with
no intervening flush, each call with its own environment and `user_id`
argument; stops at the first raised exception. -/
def runAdds (chat_id : String) (calls : List (AddEnv × Option String))
    (s : RedisState) : Except PyExc RedisState :=
  match calls with
  | [] => .ok s
  | (env, uid) :: rest =>
    match add_message_to_batch env chat_id uid s with
    | .error e => .error e
    | .ok r => runAdds chat_id rest r.state

/-- Projection on an `add_message_to_batch` outcome: `none` when the call
re-raised, otherwise whether the swallowed-cancellation warning was
logged. -/
def addWarned : Except PyExc AddOk → Option Bool
  | .ok r => some r.cancelWarned
  | .error _ => none

/-! ## Characterisation lemmas -/

theorem rincr_ok_get (s s' : RedisState) (k : String) (n : Int)
    (h : rincr s k = .ok (s', n)) :
    rget s' k = some (.int n) ∧ ∀ k2, k2 ≠ k → rget s' k2 = rget s k2 := by
  unfold rincr at h
  split at h
  · simp only [Except.ok.injEq, Prod.mk.injEq] at h
    obtain ⟨rfl, rfl⟩ := h
    exact ⟨by simp, fun k2 hk2 => by simp [hk2]⟩
  · split at h
    · simp only [Except.ok.injEq, Prod.mk.injEq] at h
      obtain ⟨rfl, rfl⟩ := h
      exact ⟨by simp, fun k2 hk2 => by simp [hk2]⟩
    · exact absurd h (by simp)

/-- The store after the step-2 conditional `user_id` write
(`if user_id: redis_conn.set(user_id_key, user_id)`). -/
def userWrite (s1 : RedisState) (chat_id : String) : Option String → RedisState
  | some u => if u.isEmpty then s1 else rset s1 (user_id_key chat_id) (.str u)
  | none => s1

/-- Successful `add_message_to_batch` calls produce exactly the store reached
by the increment, the conditional `user_id` write, and the new-job-id
write. -/
theorem add_ok_state (env : AddEnv) (chat_id : String) (user_id : Option String)
    (s : RedisState) (r : AddOk)
    (h : add_message_to_batch env chat_id user_id s = .ok r) :
    ∃ s1 n, rincr s (count_key chat_id) = .ok (s1, n) ∧
      r.state = rset (userWrite s1 chat_id user_id)
        (job_id_key chat_id) (.str r.newJobId) := by
  obtain ⟨i, su, gj, fr, ce, er, sj⟩ := env
  unfold add_message_to_batch at h
  cases i with
  | some e => exact absurd h (by simp)
  | none =>
  cases hri : rincr s (count_key chat_id) with
  | error e => rw [hri] at h; exact absurd h (by simp)
  | ok p =>
  obtain ⟨s1, n⟩ := p
  rw [hri] at h
  cases hsu : (if optTruthy user_id then su else none) with
  | some e => simp only [hsu] at h; exact absurd h (by simp)
  | none =>
  simp only [hsu] at h
  cases gj with
  | some e => exact absurd h (by simp)
  | none =>
  cases er with
  | error e => exact absurd h (by simp)
  | ok newId =>
  cases sj with
  | some e => exact absurd h (by simp)
  | none =>
  simp only [Except.ok.injEq] at h
  refine ⟨s1, n, rfl, ?_⟩
  subst h
  cases user_id <;> rfl

@[simp]
theorem rget_userWrite_count (s1 : RedisState) (chat_id a : String)
    (uid : Option String) :
    rget (userWrite s1 chat_id uid) (count_key a) = rget s1 (count_key a) := by
  cases uid with
  | none => rfl
  | some u =>
    by_cases hu : u.isEmpty
    · simp [userWrite, hu]
    · simp [userWrite, hu, count_key_ne_user_id_key]

@[simp]
theorem rget_userWrite_job (s1 : RedisState) (chat_id a : String)
    (uid : Option String) :
    rget (userWrite s1 chat_id uid) (job_id_key a) = rget s1 (job_id_key a) := by
  cases uid with
  | none => rfl
  | some u =>
    by_cases hu : u.isEmpty
    · simp [userWrite, hu]
    · have hne : job_id_key a ≠ user_id_key chat_id :=
        Ne.symm (user_id_key_ne_job_id_key chat_id a)
      simp [userWrite, hu, hne]

/-- A successful call on a conversation whose counter holds `m` leaves the
counter at `m + 1`. -/
theorem add_ok_count_succ (env : AddEnv) (chat_id : String) (user_id : Option String)
    (s : RedisState) (r : AddOk) (m : Int)
    (hc : rget s (count_key chat_id) = some (.int m))
    (h : add_message_to_batch env chat_id user_id s = .ok r) :
    rget r.state (count_key chat_id) = some (.int (m + 1)) := by
  obtain ⟨s1, n, hri, hst⟩ := add_ok_state env chat_id user_id s r h
  simp only [rincr, hc, Val.toInt?, Except.ok.injEq, Prod.mk.injEq] at hri
  obtain ⟨h1, h2⟩ := hri
  subst h1
  rw [hst]
  simp [count_key_ne_job_id_key]

/-- A successful call on a conversation with no counter creates it at 1. -/
theorem add_ok_count_one (env : AddEnv) (chat_id : String) (user_id : Option String)
    (s : RedisState) (r : AddOk)
    (hc : rget s (count_key chat_id) = none)
    (h : add_message_to_batch env chat_id user_id s = .ok r) :
    rget r.state (count_key chat_id) = some (.int 1) := by
  obtain ⟨s1, n, hri, hst⟩ := add_ok_state env chat_id user_id s r h
  simp only [rincr, hc, Except.ok.injEq, Prod.mk.injEq] at hri
  obtain ⟨h1, h2⟩ := hri
  subst h1
  rw [hst]
  simp [count_key_ne_job_id_key]

/-- A successful call whose `user_id` argument is falsy (`None` or the empty
string: `if user_id:` fails) leaves the stored user id untouched. -/
theorem add_ok_user_falsy (env : AddEnv) (chat_id : String) (user_id : Option String)
    (s : RedisState) (r : AddOk)
    (huid : optTruthy user_id = false)
    (h : add_message_to_batch env chat_id user_id s = .ok r) :
    rget r.state (user_id_key chat_id) = rget s (user_id_key chat_id) := by
  obtain ⟨s1, n, hri, hst⟩ := add_ok_state env chat_id user_id s r h
  have hs1 := (rincr_ok_get s s1 (count_key chat_id) n hri).2
  have huw : userWrite s1 chat_id user_id = s1 := by
    cases user_id with
    | none => rfl
    | some u =>
      simp only [optTruthy, Bool.not_eq_false'] at huid
      simp [userWrite, huid]
  rw [hst, huw]
  rw [rget_rset_ne _ _ _ _ (user_id_key_ne_job_id_key chat_id chat_id)]
  exact hs1 _ (Ne.symm (count_key_ne_user_id_key chat_id chat_id))

/-- A successful call with a truthy `user_id` stores it. -/
theorem add_ok_user_set (env : AddEnv) (chat_id u : String)
    (s : RedisState) (r : AddOk)
    (hu : u.isEmpty = false)
    (h : add_message_to_batch env chat_id (some u) s = .ok r) :
    rget r.state (user_id_key chat_id) = some (.str u) := by
  obtain ⟨s1, n, hri, hst⟩ := add_ok_state env chat_id (some u) s r h
  rw [hst]
  rw [rget_rset_ne _ _ _ _ (user_id_key_ne_job_id_key chat_id chat_id)]
  simp [userWrite, hu]

/-- `safe_forward_to_n8n` never raises, whatever the wrapped forward call
does. -/
theorem safe_forward_ok (forward : Payload → Except PyExc Bool) (p : Payload) :
    ∃ o, safe_forward_to_n8n forward p = .ok o := by
  unfold safe_forward_to_n8n
  rcases hfp : forward p with e | b
  · exact ⟨.loggedError, rfl⟩
  · cases b
    · exact ⟨.warnedFalse, rfl⟩
    · exact ⟨.forwarded, rfl⟩

/-- With all Redis round-trips succeeding and a truthy, integer-parsable
stored count, the flush body forwards the payload and deletes the three
keys - whatever the forward call does. -/
theorem flushBody_ok_full (forward : Payload → Except PyExc Bool)
    (chat_id : String) (s : RedisState) (cv : Val) (n : Int)
    (hget : rget s (count_key chat_id) = some cv)
    (ht : cv.truthy = true)
    (hint : cv.toInt? = some n) :
    flushBody (kvOkFlushEnv forward) chat_id s =
      .ok (rdel (rdel (rdel s (count_key chat_id)) (user_id_key chat_id))
             (job_id_key chat_id),
           some ⟨stored_user_id s chat_id, n⟩) := by
  obtain ⟨o, ho⟩ := safe_forward_ok forward ⟨stored_user_id s chat_id, n⟩
  unfold flushBody kvOkFlushEnv
  simp only [hget, ht, hint, ho]
  simp

/-- With the count read succeeding and the stored count absent or falsy, the
flush body is a no-op. -/
theorem flushBody_noop (env : FlushEnv) (chat_id : String) (s : RedisState)
    (henv : env.getCountExc = none)
    (h : ∀ v, rget s (count_key chat_id) = some v → v.truthy = false) :
    flushBody env chat_id s = .ok (s, none) := by
  unfold flushBody
  rw [henv]
  cases hg : rget s (count_key chat_id) with
  | none => simp [hg]
  | some v => simp [hg, h v hg]

/-- Counter invariant for a run of successful calls: each one adds 1. -/
theorem runAdds_count (chat_id : String) (calls : List (AddEnv × Option String)) :
    ∀ (s s' : RedisState) (m : Int),
      rget s (count_key chat_id) = some (.int m) →
      runAdds chat_id calls s = .ok s' →
      rget s' (count_key chat_id) = some (.int (m + calls.length)) := by
  induction calls with
  | nil =>
    intro s s' m hc h
    simp only [runAdds, Except.ok.injEq] at h
    subst h
    simpa using hc
  | cons head rest ih =>
    intro s s' m hc h
    obtain ⟨env, uid⟩ := head
    simp only [runAdds] at h
    cases hadd : add_message_to_batch env chat_id uid s with
    | error e => rw [hadd] at h; exact absurd h (by simp)
    | ok r =>
      rw [hadd] at h
      have hcr := add_ok_count_succ env chat_id uid s r m hc hadd
      have hrest := ih r.state s' (m + 1) hcr h
      rw [hrest]
      simp only [List.length_cons, Nat.cast_add, Nat.cast_one]
      ring_nf

/-- `stateAfter x d`: the store a successful `add_message_to_batch` outcome
carries (`d` when the call raised). -/
def stateAfter (x : Except PyExc AddOk) (d : RedisState) : RedisState :=
  match x with
  | .ok r => r.state
  | .error _ => d

/-- `runState x d`: the store a successful `runAdds` outcome carries (`d`
when some call raised). -/
def runState (x : Except PyExc RedisState) (d : RedisState) : RedisState :=
  match x with
  | .ok s => s
  | .error _ => d

/-! ## Claims -/

/-- **C1**: for every sequence of `N ≥ 1` `add_message_to_batch` calls for
the same conversation with no intervening flush, each completing without
raising, starting from a store where the conversation's counter is absent,
the stored count equals `N` (the atomic `INCR` creates the counter at 1 when
the key is absent). -/
theorem claim_C1_count_sequential (chat_id : String) (env0 : AddEnv)
    (uid0 : Option String) (rest : List (AddEnv × Option String))
    (s s' : RedisState)
    (habsent : rget s (count_key chat_id) = none)
    (hrun : runAdds chat_id ((env0, uid0) :: rest) s = .ok s') :
    rget s' (count_key chat_id) = some (.int (((env0, uid0) :: rest).length)) := by
  simp only [runAdds] at hrun
  cases hadd : add_message_to_batch env0 chat_id uid0 s with
  | error e => rw [hadd] at hrun; exact absurd hrun (by simp)
  | ok r =>
    rw [hadd] at hrun
    have h1 := add_ok_count_one env0 chat_id uid0 s r habsent hadd
    have hrest := runAdds_count chat_id rest r.state s' 1 h1 hrun
    rw [hrest]
    simp only [List.length_cons, Nat.cast_add, Nat.cast_one]
    ring_nf

/-- Witness for C1: three successful calls on a fresh conversation leave the
stored count at 3. -/
theorem claim_C1_count_sequential_witness :
    rget
      (runState
        (runAdds "chat1"
          [(okAddEnv, some "u1"), (okAddEnv, some "u1"), (okAddEnv, some "u1")]
          RedisState.empty)
        RedisState.empty)
      (count_key "chat1") = some (.int 3) :=
  claim_C1_count_sequential "chat1" okAddEnv (some "u1")
    [(okAddEnv, some "u1"), (okAddEnv, some "u1")] RedisState.empty _ rfl rfl

/-- **C2 (amended)**: for every conversation whose stored count is *absent*
(or stored as the empty byte string, which is equally falsy), invoking the
flush with the count read succeeding is a no-op: it does not raise, does not
invoke the forwarder, and leaves the store unchanged.  (A stored literal
`0`, which the subsystem itself never writes, would *not* be a no-op: see
the counterexample.) -/
theorem claim_C2_empty_flush_noop (env : FlushEnv) (chat_id : String)
    (s : RedisState)
    (henv : env.getCountExc = none)
    (hfalsy : ∀ v, rget s (count_key chat_id) = some v → v.truthy = false) :
    process_and_forward_batch env chat_id s =
      { state := s, forwarded := none, caught := none } := by
  unfold process_and_forward_batch
  rw [flushBody_noop env chat_id s henv hfalsy]

/-- Witness for C2: flushing a conversation with no stored state changes
nothing, forwards nothing, raises nothing. -/
theorem claim_C2_empty_flush_noop_witness :
    process_and_forward_batch (kvOkFlushEnv (fun _ => .ok true)) "chat3"
      RedisState.empty =
      { state := RedisState.empty, forwarded := none, caught := none } :=
  claim_C2_empty_flush_noop (kvOkFlushEnv (fun _ => .ok true)) "chat3"
    RedisState.empty rfl (fun _ hv => Option.noConfusion hv)

/-- Counterexample to C2 as stated: a conversation whose stored count is
zero (the byte string `b"0"`, modelled as `Val.int 0`) is **not** a no-op -
Python's `if not message_count:` is false on the truthy bytes `b"0"`, so the
flush invokes the forwarder (with a zero count) and proceeds to clear
state. -/
theorem claim_C2_zero_count_counterexample :
    rget (rset RedisState.empty (count_key "chat") (.int 0))
      (count_key "chat") = some (.int 0) ∧
    (process_and_forward_batch (kvOkFlushEnv (fun _ => .ok true)) "chat"
        (rset RedisState.empty (count_key "chat") (.int 0))).forwarded =
      some ⟨none, 0⟩ := by
  constructor
  · rfl
  · decide

/-- **C3**: for every conversation with a non-empty stored count (the
subsystem only ever stores integer counts, so the count parses), the flush
with all Redis round-trips succeeding invokes the forwarder and then deletes
all three keys - whatever the forward call's behaviour, success or failure -
and afterwards all three reads for that conversation return absent; nothing
is caught by the outer handler. -/
theorem claim_C3_flush_clears_state (forward : Payload → Except PyExc Bool)
    (chat_id : String) (s : RedisState) (cv : Val) (n : Int)
    (hget : rget s (count_key chat_id) = some cv)
    (ht : cv.truthy = true)
    (hint : cv.toInt? = some n) :
    rget (process_and_forward_batch (kvOkFlushEnv forward) chat_id s).state
        (count_key chat_id) = none ∧
    rget (process_and_forward_batch (kvOkFlushEnv forward) chat_id s).state
        (user_id_key chat_id) = none ∧
    rget (process_and_forward_batch (kvOkFlushEnv forward) chat_id s).state
        (job_id_key chat_id) = none ∧
    (process_and_forward_batch (kvOkFlushEnv forward) chat_id s).forwarded =
      some ⟨stored_user_id s chat_id, n⟩ ∧
    (process_and_forward_batch (kvOkFlushEnv forward) chat_id s).caught = none := by
  unfold process_and_forward_batch
  rw [flushBody_ok_full forward chat_id s cv n hget ht hint]
  refine ⟨?_, ?_, ?_, rfl, rfl⟩
  · rw [rget_rdel_ne _ _ _ (count_key_ne_job_id_key chat_id chat_id)]
    rw [rget_rdel_ne _ _ _ (count_key_ne_user_id_key chat_id chat_id)]
    exact rget_rdel_self _ _
  · rw [rget_rdel_ne _ _ _ (user_id_key_ne_job_id_key chat_id chat_id)]
    exact rget_rdel_self _ _
  · exact rget_rdel_self _ _

/-- Witness for C3: a conversation with count 3 and user `"u1"`, flushed
while the forward call *always raises*, still forwards the payload attempt
and ends with all three keys absent. -/
theorem claim_C3_flush_clears_state_witness :
    rget (process_and_forward_batch
        (kvOkFlushEnv (fun _ => .error ⟨"n8n down"⟩)) "chat1"
        (rset (rset RedisState.empty (count_key "chat1") (.int 3))
          (user_id_key "chat1") (.str "u1"))).state
      (count_key "chat1") = none ∧
    rget (process_and_forward_batch
        (kvOkFlushEnv (fun _ => .error ⟨"n8n down"⟩)) "chat1"
        (rset (rset RedisState.empty (count_key "chat1") (.int 3))
          (user_id_key "chat1") (.str "u1"))).state
      (user_id_key "chat1") = none ∧
    rget (process_and_forward_batch
        (kvOkFlushEnv (fun _ => .error ⟨"n8n down"⟩)) "chat1"
        (rset (rset RedisState.empty (count_key "chat1") (.int 3))
          (user_id_key "chat1") (.str "u1"))).state
      (job_id_key "chat1") = none ∧
    (process_and_forward_batch
        (kvOkFlushEnv (fun _ => .error ⟨"n8n down"⟩)) "chat1"
        (rset (rset RedisState.empty (count_key "chat1") (.int 3))
          (user_id_key "chat1") (.str "u1"))).forwarded =
      some ⟨some "u1", 3⟩ ∧
    (process_and_forward_batch
        (kvOkFlushEnv (fun _ => .error ⟨"n8n down"⟩)) "chat1"
        (rset (rset RedisState.empty (count_key "chat1") (.int 3))
          (user_id_key "chat1") (.str "u1"))).caught = none :=
  claim_C3_flush_clears_state (fun _ => .error ⟨"n8n down"⟩) "chat1"
    (rset (rset RedisState.empty (count_key "chat1") (.int 3))
      (user_id_key "chat1") (.str "u1"))
    (.int 3) 3 rfl rfl rfl

/-- **C4**: `safe_forward_to_n8n` never raises, for *every* payload and
*every* behaviour of the wrapped forward call (including one that always
raises, and retry-budget exhaustion); consequently a flush whose Redis
round-trips succeed never has an exception caught from the forward step -
for any behaviour of the underlying forward call, the flush completes
cleanly. -/
theorem claim_C4_forward_failures_swallowed :
    (∀ (forward : Payload → Except PyExc Bool) (p : Payload),
      ∃ o, safe_forward_to_n8n forward p = .ok o) ∧
    (∀ (forward : Payload → Except PyExc Bool) (chat_id : String)
        (s : RedisState),
      (rget s (count_key chat_id) = none ∨
        (∃ m : Int, rget s (count_key chat_id) = some (.int m)) ∨
        (∃ cv, rget s (count_key chat_id) = some cv ∧ cv.truthy = false)) →
      (process_and_forward_batch (kvOkFlushEnv forward) chat_id s).caught =
        none) := by
  refine ⟨safe_forward_ok, ?_⟩
  intro forward chat_id s h
  rcases h with h | ⟨m, h⟩ | ⟨cv, h, ht⟩
  · unfold process_and_forward_batch
    rw [flushBody_noop _ chat_id s rfl (fun v hv => by rw [h] at hv; cases hv)]
  · unfold process_and_forward_batch
    rw [flushBody_ok_full forward chat_id s (.int m) m h rfl rfl]
  · unfold process_and_forward_batch
    rw [flushBody_noop _ chat_id s rfl
      (fun v hv => by rw [h] at hv; cases hv; exact ht)]

/-- Witness for C4: with a forward call that always raises, flushing a
conversation with count 5 completes cleanly (nothing caught), and
`safe_forward_to_n8n` returns normally on a concrete payload. -/
theorem claim_C4_forward_failures_swallowed_witness :
    (∃ o, safe_forward_to_n8n (fun _ => .error ⟨"connect timeout"⟩)
        ⟨some "u1", 5⟩ = .ok o) ∧
    (process_and_forward_batch
        (kvOkFlushEnv (fun _ => .error ⟨"connect timeout"⟩)) "c"
        (rset RedisState.empty (count_key "c") (.int 5))).caught = none :=
  ⟨claim_C4_forward_failures_swallowed.1 (fun _ => .error ⟨"connect timeout"⟩)
      ⟨some "u1", 5⟩,
    claim_C4_forward_failures_swallowed.2 (fun _ => .error ⟨"connect timeout"⟩)
      "c" (rset RedisState.empty (count_key "c") (.int 5))
      (Or.inr (Or.inl ⟨5, rfl⟩))⟩

/-- Counterexample to C5 as stated: a genuine failure during step 3 (the
scheduler raises while fetching the previously stored pending job in order
to cancel it) is *not* re-raised: the inner
`except Exception: logger.warning("Could not cancel existing job")` handler
swallows it and the call completes normally (`addWarned ... = some true`:
the call returned ok and the warning path ran). -/
theorem claim_C5_cancel_failure_swallowed_counterexample :
    addWarned (add_message_to_batch
      { okAddEnv with fetchResult := .error ⟨"ConnectionError: scheduler unreachable"⟩ }
      "chat" (some "u1")
      (rset RedisState.empty (job_id_key "chat") (.str "old-job"))) =
      some true := by
  decide

/-- **C5 (amended)**: failures while *reading* the stored pending-task id,
*scheduling* the new flush task, or *storing* the new task id are re-raised
to the caller; a failure inside the best-effort fetch/cancel of the old task
is logged as a warning and swallowed (the call still completes, whatever the
fetch and cancel outcomes). -/
theorem claim_C5_reraise_amended (chat_id : String) (user_id : Option String)
    (s : RedisState) (e : PyExc)
    (hc : rget s (count_key chat_id) = none ∨
      ∃ m : Int, rget s (count_key chat_id) = some (.int m)) :
    add_message_to_batch { okAddEnv with getJobExc := some e }
        chat_id user_id s = .error e ∧
    add_message_to_batch { okAddEnv with enqueueResult := .error e }
        chat_id user_id s = .error e ∧
    add_message_to_batch { okAddEnv with setJobExc := some e }
        chat_id user_id s = .error e ∧
    ∀ (fr : Except PyExc JobStatus) (ce : Option PyExc),
      (addWarned (add_message_to_batch
        { okAddEnv with fetchResult := fr, cancelExc := ce }
        chat_id user_id s)).isSome = true := by
  have hri : ∃ s1 n, rincr s (count_key chat_id) = .ok (s1, n) := by
    rcases hc with hc | ⟨m, hc⟩
    · exact ⟨rset s (count_key chat_id) (.int 1), 1, by simp [rincr, hc]⟩
    · exact ⟨rset s (count_key chat_id) (.int (m + 1)), m + 1,
        by simp [rincr, hc, Val.toInt?]⟩
  obtain ⟨s1, n, hri⟩ := hri
  refine ⟨?_, ?_, ?_, ?_⟩
  · simp [add_message_to_batch, okAddEnv, hri]
  · simp [add_message_to_batch, okAddEnv, hri]
  · simp [add_message_to_batch, okAddEnv, hri]
  · intro fr ce
    simp [add_message_to_batch, okAddEnv, hri, addWarned]

/-- Witness for C5 (amended): with the conversation fresh, a raising
`redis.get(job_id_key)` is re-raised, while an arbitrary failing fetch is
swallowed. -/
theorem claim_C5_reraise_amended_witness :
    add_message_to_batch
        { okAddEnv with getJobExc := some ⟨"redis unreachable"⟩ }
        "c" (some "u1") RedisState.empty = .error ⟨"redis unreachable"⟩ ∧
    (addWarned (add_message_to_batch
        { okAddEnv with fetchResult := .error ⟨"boom"⟩, cancelExc := none }
        "c" (some "u1") RedisState.empty)).isSome = true := by
  have h := claim_C5_reraise_amended "c" (some "u1") RedisState.empty
    ⟨"redis unreachable"⟩ (Or.inl rfl)
  exact ⟨h.1, h.2.2.2 (.error ⟨"boom"⟩) none⟩

/-- Counterexample to C6 as stated: with the first key-value delete raising
a connection error, the flush *body* raises - but `process_and_forward_batch`
catches it (`except Exception: logger.error(...)`, deliberately not
re-raised, lines 138-141), completes normally with the exception recorded,
and the accumulated state is still in place.  Nothing propagates to the
scheduler. -/
theorem claim_C6_kv_error_caught_counterexample :
    flushBody
        { kvOkFlushEnv (fun _ => .ok true) with
            delCountExc := some ⟨"redis: connection lost"⟩ }
        "chat"
        (rset (rset (rset RedisState.empty (count_key "chat") (.int 2))
          (user_id_key "chat") (.str "u1")) (job_id_key "chat") (.str "j1")) =
      .error (⟨"redis: connection lost"⟩,
        rset (rset (rset RedisState.empty (count_key "chat") (.int 2))
          (user_id_key "chat") (.str "u1")) (job_id_key "chat") (.str "j1"),
        some ⟨some "u1", 2⟩) ∧
    process_and_forward_batch
        { kvOkFlushEnv (fun _ => .ok true) with
            delCountExc := some ⟨"redis: connection lost"⟩ }
        "chat"
        (rset (rset (rset RedisState.empty (count_key "chat") (.int 2))
          (user_id_key "chat") (.str "u1")) (job_id_key "chat") (.str "j1")) =
      { state :=
          rset (rset (rset RedisState.empty (count_key "chat") (.int 2))
            (user_id_key "chat") (.str "u1")) (job_id_key "chat") (.str "j1")
        forwarded := some ⟨some "u1", 2⟩
        caught := some ⟨"redis: connection lost"⟩ } :=
  ⟨rfl, rfl⟩

/-- **C6 (amended)**: every exception raised inside the flush body -
including those from the key-value read/delete layer - is caught by the
outer handler: the job completes normally (it is *not* marked failed), the
exception is only logged, and whatever state the body had not yet deleted
remains in place; in particular a failing count read leaves the store fully
unchanged and nothing forwarded. -/
theorem claim_C6_kv_error_caught_amended :
    (∀ (env : FlushEnv) (chat_id : String) (s : RedisState) (e : PyExc)
        (s2 : RedisState) (fwd : Option Payload),
      flushBody env chat_id s = .error (e, s2, fwd) →
      process_and_forward_batch env chat_id s =
        { state := s2, forwarded := fwd, caught := some e }) ∧
    (∀ (env : FlushEnv) (chat_id : String) (s : RedisState) (e : PyExc),
      env.getCountExc = some e →
      process_and_forward_batch env chat_id s =
        { state := s, forwarded := none, caught := some e }) := by
  constructor
  · intro env chat_id s e s2 fwd h
    unfold process_and_forward_batch
    rw [h]
  · intro env chat_id s e h
    unfold process_and_forward_batch flushBody
    rw [h]

/-- Witness for C6 (amended): a second-delete failure is caught with the
first delete already applied, and a raising count read is caught leaving the
store untouched. -/
theorem claim_C6_kv_error_caught_amended_witness :
    process_and_forward_batch
        { kvOkFlushEnv (fun _ => .ok true) with
            delUserExc := some ⟨"redis lost"⟩ }
        "c"
        (rset (rset RedisState.empty (count_key "c") (.int 1))
          (user_id_key "c") (.str "u9")) =
      { state :=
          rdel
            (rset (rset RedisState.empty (count_key "c") (.int 1))
              (user_id_key "c") (.str "u9"))
            (count_key "c")
        forwarded := some ⟨some "u9", 1⟩
        caught := some ⟨"redis lost"⟩ } ∧
    process_and_forward_batch
        { kvOkFlushEnv (fun _ => .ok true) with
            getCountExc := some ⟨"redis down"⟩ }
        "c" RedisState.empty =
      { state := RedisState.empty, forwarded := none,
        caught := some ⟨"redis down"⟩ } :=
  ⟨claim_C6_kv_error_caught_amended.1
      { kvOkFlushEnv (fun _ => .ok true) with delUserExc := some ⟨"redis lost"⟩ }
      "c"
      (rset (rset RedisState.empty (count_key "c") (.int 1))
        (user_id_key "c") (.str "u9"))
      ⟨"redis lost"⟩
      (rdel
        (rset (rset RedisState.empty (count_key "c") (.int 1))
          (user_id_key "c") (.str "u9"))
        (count_key "c"))
      (some ⟨some "u9", 1⟩) rfl,
    claim_C6_kv_error_caught_amended.2
      { kvOkFlushEnv (fun _ => .ok true) with getCountExc := some ⟨"redis down"⟩ }
      "c" RedisState.empty ⟨"redis down"⟩ rfl⟩

/-- **C7**: a successful `add_message_to_batch` call with an absent
(`None`) `user_id` never touches the stored user id (`if user_id:` fails),
so a previously stored concrete user id is retained; and concretely,
`addMessage(conv, "user-A")` then `addMessage(conv, None)` then flush
forwards a payload whose user id is `"user-A"` (with count 2). -/
theorem claim_C7_user_retention :
    (∀ (env : AddEnv) (chat_id : String) (s : RedisState) (r : AddOk),
      add_message_to_batch env chat_id none s = .ok r →
      rget r.state (user_id_key chat_id) = rget s (user_id_key chat_id)) ∧
    (process_and_forward_batch (kvOkFlushEnv (fun _ => .ok true)) "conv"
        (stateAfter
          (add_message_to_batch okAddEnv "conv" none
            (stateAfter
              (add_message_to_batch okAddEnv "conv" (some "user-A")
                RedisState.empty)
              RedisState.empty))
          RedisState.empty)).forwarded = some ⟨some "user-A", 2⟩ := by
  constructor
  · intro env chat_id s r h
    exact add_ok_user_falsy env chat_id none s r rfl h
  · decide

/-- Witness for C7: an `add_message_to_batch` call with `None` user id on a
conversation that already stores `"user-A"` leaves the stored user id
read unchanged. -/
theorem claim_C7_user_retention_witness :
    rget
      (rset
        (rset (rset RedisState.empty (user_id_key "c") (.str "user-A"))
          (count_key "c") (.int 1))
        (job_id_key "c") (.str "new-job-id"))
      (user_id_key "c") =
      rget (rset RedisState.empty (user_id_key "c") (.str "user-A"))
        (user_id_key "c") :=
  claim_C7_user_retention.1 okAddEnv "c"
    (rset RedisState.empty (user_id_key "c") (.str "user-A"))
    { state :=
        rset
          (rset (rset RedisState.empty (user_id_key "c") (.str "user-A"))
            (count_key "c") (.int 1))
          (job_id_key "c") (.str "new-job-id")
      newJobId := "new-job-id"
      cancelWarned := false }
    rfl

/-- **C8**: the pipeline's n8n handoff invokes `add_message_to_batch` if and
only if the message is not from the agent account, the oversized-media skip
flag is unset, and the account's subscription status is not `"pilot"`; in
particular a message with `from_me = true` leaves the conversation's batch
state untouched. -/
theorem claim_C8_pipeline_decision (env : AddEnv) (from_me skip_n8n_batch : Bool)
    (subscription_status : Option String) (chat_id : String)
    (user_id : Option String) (s : RedisState) :
    ((n8n_handoff env from_me skip_n8n_batch subscription_status chat_id
        user_id s).2 = true ↔
      (from_me = false ∧ skip_n8n_batch = false ∧
        subscription_status ≠ some "pilot")) ∧
    (from_me = true →
      n8n_handoff env from_me skip_n8n_batch subscription_status chat_id
        user_id s = (s, false)) := by
  constructor
  · unfold n8n_handoff should_add_to_batch is_pilot
    by_cases hp : subscription_status = some "pilot" <;>
      cases from_me <;> cases skip_n8n_batch <;> simp [hp]
    split <;> simp
  · intro h
    subst h
    unfold n8n_handoff should_add_to_batch
    simp

/-- Witness for C8: a `from_me = true` message does not mutate batch
state. -/
theorem claim_C8_pipeline_decision_witness :
    n8n_handoff okAddEnv true false none "c" none RedisState.empty =
      (RedisState.empty, false) :=
  (claim_C8_pipeline_decision okAddEnv true false none "c" none
    RedisState.empty).2 rfl

/-- **C9**: an `add_message_to_batch` call whose `user_id` is the empty
string does not write the stored user id (`if user_id:` is falsy on `""`,
exactly as on `None`), so a previously stored concrete user id is retained;
and a fresh conversation flushed after one empty-string call forwards
`user_id` as null. -/
theorem claim_C9_empty_string_userid :
    (∀ (env : AddEnv) (chat_id : String) (s : RedisState) (r : AddOk),
      add_message_to_batch env chat_id (some "") s = .ok r →
      rget r.state (user_id_key chat_id) = rget s (user_id_key chat_id)) ∧
    (process_and_forward_batch (kvOkFlushEnv (fun _ => .ok true)) "conv2"
        (stateAfter
          (add_message_to_batch okAddEnv "conv2" (some "") RedisState.empty)
          RedisState.empty)).forwarded = some ⟨none, 1⟩ := by
  constructor
  · intro env chat_id s r h
    exact add_ok_user_falsy env chat_id (some "") s r rfl h
  · decide

/-- Witness for C9: an empty-string `user_id` call on a conversation that
already stores `"user-A"` leaves the stored user id read unchanged. -/
theorem claim_C9_empty_string_userid_witness :
    rget
      (rset
        (rset (rset RedisState.empty (user_id_key "c2") (.str "user-A"))
          (count_key "c2") (.int 1))
        (job_id_key "c2") (.str "new-job-id"))
      (user_id_key "c2") =
      rget (rset RedisState.empty (user_id_key "c2") (.str "user-A"))
        (user_id_key "c2") :=
  claim_C9_empty_string_userid.1 okAddEnv "c2"
    (rset RedisState.empty (user_id_key "c2") (.str "user-A"))
    { state :=
        rset
          (rset (rset RedisState.empty (user_id_key "c2") (.str "user-A"))
            (count_key "c2") (.int 1))
          (job_id_key "c2") (.str "new-job-id")
      newJobId := "new-job-id"
      cancelWarned := false }
    rfl

/-- **C10**: for every payload and every pair of HTTP attempt outcomes,
`forward_to_n8n` either returns `True` or raises (`tenacity` with
`reraise=False` raises `RetryError` on exhaustion); it never returns
`False`, so the `if not success:` warning branch of `safe_forward_to_n8n`
is unreachable when wrapping `forward_to_n8n`. -/
theorem claim_C10_forward_never_false (o1 o2 : HttpOutcome) (p : Payload) :
    (forward_to_n8n o1 o2 p = .ok true ∨
      ∃ e, forward_to_n8n o1 o2 p = .error e) ∧
    (safe_forward_to_n8n (forward_to_n8n o1 o2) p = .ok .forwarded ∨
      safe_forward_to_n8n (forward_to_n8n o1 o2) p = .ok .loggedError) := by
  cases o1 <;> cases o2 <;>
    simp [forward_to_n8n, retryStopAfterTwo, forwardAttempt,
      safe_forward_to_n8n]

end MessageMemory
